import Mathlib

/-!
Verification development for the blood-test analyser core
(`tools.py`: `extract_blood_markers`, `analyze_nutrition`,
`create_exercise_plan`).

The extractor is embedded faithfully: each regular-expression pattern of
the source's per-marker pattern table is translated into a deterministic
matcher over `List Char` (the patterns are simple enough that greedy
matching coincides with the backtracking semantics of Python's `re`
engine: every greedy piece is followed by a piece whose first character
is disjoint from the repeated class, and the two genuine alternations —
the `^`-or-whitespace anchor and the optional unit — are tried in the
engine's order).  `re.finditer` is modelled by a left-to-right scan that
attempts the pattern at every position and resumes after the end of each
match, tracking the MULTILINE beginning-of-line flag.  Numeric values
are exact rationals (`ℚ`); the decimal captures of the patterns are
parsed exactly, mirroring Python's `float` on the capture grammar
`\d+\.?\d*`.  Python exceptions are modelled with `Except PyExc`:
`float` raises `ValueError` on an unparsable capture, and the
two-argument call `any(cond1, cond2)` in `create_exercise_plan` raises a
`TypeError`.
-/

/-- The closed set of marker names of the pattern table in `tools.py`. -/
inductive Marker where
  | hemoglobin | cholesterol | glucose | protein | albumin | creatinine
  | hdl | ldl | triglycerides | bun | sodium | potassium
deriving DecidableEq, Repr

/-- Python exceptions that the embedded code can raise. -/
inductive PyExc where
  | valueError
  | typeError (msg : String)
deriving DecidableEq, Repr

/-- `str(e)` for the modelled exceptions. -/
def pyExcStr : PyExc → String
  | PyExc.valueError => "could not convert string to float"
  | PyExc.typeError msg => msg

/-- Python's `\s` on the ASCII range (the inputs of interest are ASCII). -/
def isSpaceCh (c : Char) : Bool :=
  c == ' ' || c == '\t' || c == '\n' || c == '\r' || c == '\x0b' || c == '\x0c'

/-- Drop a literal string (already lower-case in the table) from the head. -/
def dropLit : List Char → List Char → Option (List Char)
  | [], cs => some cs
  | _ :: _, [] => none
  | l :: ls, c :: cs => if c = l then dropLit ls cs else none

/-- `[:\s]*`, greedy. -/
def skipCS (cs : List Char) : List Char :=
  cs.dropWhile (fun c => c == ':' || isSpaceCh c)

/-- `\s*`, greedy. -/
def skipSp (cs : List Char) : List Char :=
  cs.dropWhile isSpaceCh

/-- The capture group `(\d+\.?\d*)`, greedy: returns the captured
characters and the rest of the text. -/
def takeNum (cs : List Char) : Option (List Char × List Char) :=
  let ds := cs.takeWhile Char.isDigit
  if ds.isEmpty then none
  else
    let rest := cs.drop ds.length
    match rest with
    | '.' :: rest2 =>
        let fs := rest2.takeWhile Char.isDigit
        some (ds ++ '.' :: fs, rest2.drop fs.length)
    | _ => some (ds, rest)

/-- A compiled pattern: given the beginning-of-line flag at the current
position and the text suffix, return the capture and the remaining text
after the match. -/
def PatT : Type := Bool → List Char → Option (List Char × List Char)

/-- `name[:\s]*(\d+\.?\d*)\s*unit` (e.g. `hemoglobin[:\s]*(\d+\.?\d*)\s*g/dl`). -/
def pNameUnit (name unit : String) : PatT := fun _ cs =>
  (dropLit name.data cs).bind fun cs1 =>
  (takeNum (skipCS cs1)).bind fun pr =>
  (dropLit unit.data (skipSp pr.2)).map fun cs2 => (pr.1, cs2)

/-- `name[:\s]*(\d+\.?\d*)`. -/
def pName (name : String) : PatT := fun _ cs =>
  (dropLit name.data cs).bind fun cs1 => takeNum (skipCS cs1)

/-- `w1\s*w2[:\s]*(\d+\.?\d*)\s*unit` (e.g. `total\s*cholesterol...mg/dl`). -/
def pTwoWordsUnit (w1 w2 unit : String) : PatT := fun _ cs =>
  (dropLit w1.data cs).bind fun cs1 =>
  (dropLit w2.data (skipSp cs1)).bind fun cs2 =>
  (takeNum (skipCS cs2)).bind fun pr =>
  (dropLit unit.data (skipSp pr.2)).map fun cs3 => (pr.1, cs3)

/-- `w1\s*w2[:\s]*(\d+\.?\d*)` (e.g. `blood\s*sugar[:\s]*(\d+\.?\d*)`). -/
def pTwoWords (w1 w2 : String) : PatT := fun _ cs =>
  (dropLit w1.data cs).bind fun cs1 =>
  (dropLit w2.data (skipSp cs1)).bind fun cs2 =>
  takeNum (skipCS cs2)

/-- `w1\s*w2\s*w3[:\s]*(\d+\.?\d*)` (`blood\s*urea\s*nitrogen...`). -/
def pThreeWords (w1 w2 w3 : String) : PatT := fun _ cs =>
  (dropLit w1.data cs).bind fun cs1 =>
  (dropLit w2.data (skipSp cs1)).bind fun cs2 =>
  (dropLit w3.data (skipSp cs2)).bind fun cs3 =>
  takeNum (skipCS cs3)

/-- `name\s*(?:optw)?[:\s]*(\d+\.?\d*)`: the optional word is tried
first (greedy `?`), and on failure of the remainder the engine falls
back to the empty alternative. -/
def pNameOptWord (name optw : String) : PatT := fun _ cs =>
  (dropLit name.data cs).bind fun cs1 =>
    let cs2 := skipSp cs1
    let tailf := fun cs3 => takeNum (skipCS cs3)
    match dropLit optw.data cs2 with
    | some cs3 => (tailf cs3).orElse (fun _ => tailf cs2)
    | none => tailf cs2

/-- `name\s*(?:optw)?[:\s]*(\d+\.?\d*)\s*unit`. -/
def pNameOptWordUnit (name optw unit : String) : PatT := fun _ cs =>
  (dropLit name.data cs).bind fun cs1 =>
    let cs2 := skipSp cs1
    let tailf := fun cs3 =>
      (takeNum (skipCS cs3)).bind fun pr =>
      (dropLit unit.data (skipSp pr.2)).map fun cs4 => (pr.1, cs4)
    match dropLit optw.data cs2 with
    | some cs3 => (tailf cs3).orElse (fun _ => tailf cs2)
    | none => tailf cs2

/-- `t\.?\s*w[:\s]*(\d+\.?\d*)` (`t\.?\s*chol...`, `t\.?\s*protein...`). -/
def pTDotWord (w : String) : PatT := fun _ cs =>
  (dropLit [ 't' ] cs).bind fun cs1 =>
    let cs1b := match cs1 with | '.' :: r => r | _ => cs1
    (dropLit w.data (skipSp cs1b)).bind fun cs2 =>
    takeNum (skipCS cs2)

/-- `(?:^|\s)abbr\s*:?\s*(\d+\.?\d*)`: the zero-width `^` branch is
tried first (as Python does), then the one-whitespace branch. -/
def pAnchoredAbbr (abbr : String) : PatT := fun bol cs =>
  let body := fun cs1 =>
    (dropLit abbr.data cs1).bind fun cs2 =>
      let cs3 := skipSp cs2
      let cs4 := match cs3 with | ':' :: r => r | _ => cs3
      takeNum (skipSp cs4)
  (if bol then body cs else none).orElse (fun _ =>
    match cs with
    | c :: cs1 => if isSpaceCh c then body cs1 else none
    | [] => none)

/-- `name[:\s]*(\d+\.?\d*)\s*(?:meq/l|mmol/l)?` (sodium, potassium):
the trailing whitespace is consumed by the greedy `\s*` even when no
unit follows, and the unit alternatives are tried left to right. -/
def pNameOptUnits (name : String) : PatT := fun _ cs =>
  (dropLit name.data cs).bind fun cs1 =>
  (takeNum (skipCS cs1)).map fun pr =>
    let cs2 := skipSp pr.2
    match dropLit ("meq/l").data cs2 with
    | some cs3 => (pr.1, cs3)
    | none =>
      match dropLit ("mmol/l").data cs2 with
      | some cs3 => (pr.1, cs3)
      | none => (pr.1, cs2)

/-- The pattern table of `tools.py` (lines 123-192), per marker, in the
configured order. -/
def patsOf : Marker → List PatT
  | Marker.hemoglobin =>
      [pNameUnit "hemoglobin" "g/dl", pNameUnit "hgb" "g/dl",
       pNameUnit "hb" "g/dl", pName "hemoglobin",
       pAnchoredAbbr "hb", pNameOptWord "hemoglobin" "level"]
  | Marker.cholesterol =>
      [pTwoWordsUnit "total" "cholesterol" "mg/dl",
       pNameOptWordUnit "cholesterol" "total" "mg/dl",
       pTDotWord "chol", pName "cholesterol", pAnchoredAbbr "chol"]
  | Marker.glucose =>
      [pNameUnit "glucose" "mg/dl", pTwoWordsUnit "blood" "glucose" "mg/dl",
       pTwoWordsUnit "fasting" "glucose" "mg/dl", pName "glucose",
       pTwoWords "blood" "sugar", pAnchoredAbbr "glu"]
  | Marker.protein =>
      [pTwoWordsUnit "total" "protein" "g/dl",
       pNameOptWordUnit "protein" "total" "g/dl",
       pTDotWord "protein", pName "protein"]
  | Marker.albumin =>
      [pNameUnit "albumin" "g/dl", pName "albumin", pAnchoredAbbr "alb"]
  | Marker.creatinine =>
      [pNameUnit "creatinine" "mg/dl", pName "creatinine", pAnchoredAbbr "creat"]
  | Marker.hdl =>
      [pNameUnit "hdl" "mg/dl", pTwoWords "hdl" "cholesterol", pAnchoredAbbr "hdl"]
  | Marker.ldl =>
      [pNameUnit "ldl" "mg/dl", pTwoWords "ldl" "cholesterol", pAnchoredAbbr "ldl"]
  | Marker.triglycerides =>
      [pNameUnit "triglycerides" "mg/dl", pName "triglycerides",
       pAnchoredAbbr "trig", pAnchoredAbbr "tg"]
  | Marker.bun =>
      [pNameUnit "bun" "mg/dl", pThreeWords "blood" "urea" "nitrogen",
       pAnchoredAbbr "bun"]
  | Marker.sodium => [pNameOptUnits "sodium", pAnchoredAbbr "na"]
  | Marker.potassium => [pNameOptUnits "potassium", pAnchoredAbbr "k"]

/-- The iteration order of the pattern dictionary (insertion order). -/
def markerOrder : List Marker :=
  [Marker.hemoglobin, Marker.cholesterol, Marker.glucose, Marker.protein,
   Marker.albumin, Marker.creatinine, Marker.hdl, Marker.ldl,
   Marker.triglycerides, Marker.bun, Marker.sodium, Marker.potassium]

/-- Is the last character consumed between `cs` and its suffix `rest` a
newline?  Used to maintain the MULTILINE beginning-of-line flag when a
match is resumed after its end. -/
def nlBefore (cs rest : List Char) : Bool :=
  match (cs.take (cs.length - rest.length)).getLast? with
  | some c => c == '\n'
  | none => false

/-- Left-to-right scan of `re.finditer`: attempt the pattern at every
position, resume after the end of each (non-empty) match, and collect
the captures in order.  `fuel` bounds the recursion; `cs.length + 1` is
always sufficient because each step strictly shortens the text. -/
def scanAux (p : PatT) : Nat → Bool → List Char → List (List Char)
  | 0, _, _ => []
  | fuel + 1, bol, cs =>
    match p bol cs with
    | some (cap, rest) =>
        if rest.length < cs.length then
          cap :: scanAux p fuel (nlBefore cs rest) rest
        else
          [cap]
    | none =>
        match cs with
        | [] => []
        | c :: cs' => scanAux p fuel (c == '\n') cs'

/-- All captures of `re.finditer(pattern, text, re.MULTILINE)`. -/
def finditer (p : PatT) (cs : List Char) : List (List Char) :=
  scanAux p (cs.length + 1) true cs

/-- Digits to a natural number. -/
def digitsToNat (ds : List Char) : Nat :=
  ds.foldl (fun a c => a * 10 + (c.toNat - ('0').toNat)) 0

/-- Exact decimal parsing of a capture of `(\d+\.?\d*)`; shapes outside
that grammar (no leading digits, stray characters) fail. -/
def parseDec (cs : List Char) : Option ℚ :=
  let ds := cs.takeWhile Char.isDigit
  if ds.isEmpty then none
  else
    match cs.drop ds.length with
    | [] => some ((digitsToNat ds : ℚ))
    | '.' :: fs =>
        if fs.all Char.isDigit then
          some ((digitsToNat ds : ℚ) + (digitsToNat fs : ℚ) / ((10 : ℚ) ^ fs.length))
        else none
    | _ => none

/-- Python's `float` on a capture: raises `ValueError` when unparsable. -/
def pyFloat (cs : List Char) : Except PyExc ℚ :=
  match parseDec cs with
  | some v => Except.ok v
  | none => Except.error PyExc.valueError

/-- The validation ranges of the `elif` chain (lines 204-229): lower bound. -/
def loB : Marker → ℚ
  | Marker.hemoglobin => 5
  | Marker.cholesterol => 50
  | Marker.glucose => 30
  | Marker.protein => 2
  | Marker.albumin => 2
  | Marker.creatinine => 1 / 10
  | Marker.hdl => 10
  | Marker.ldl => 10
  | Marker.triglycerides => 20
  | Marker.bun => 5
  | Marker.sodium => 100
  | Marker.potassium => 100

/-- The validation ranges of the `elif` chain: upper bound. -/
def hiB : Marker → ℚ
  | Marker.hemoglobin => 25
  | Marker.cholesterol => 500
  | Marker.glucose => 600
  | Marker.protein => 15
  | Marker.albumin => 15
  | Marker.creatinine => 15
  | Marker.hdl => 300
  | Marker.ldl => 300
  | Marker.triglycerides => 1000
  | Marker.bun => 100
  | Marker.sodium => 200
  | Marker.potassium => 200

/-- The range check `lo <= value <= hi` of the `elif` chain. -/
def rangeOk (m : Marker) (v : ℚ) : Bool :=
  decide (loB m ≤ v) && decide (v ≤ hiB m)

/-- The inner `for match in matches` loop: parse each capture
(`try: value = float(...)` with `except ValueError: continue`), record
the first in-range value and break; out-of-range values fall through.
An exception other than `ValueError` would propagate. -/
def firstValidE (m : Marker) : List (List Char) → Except PyExc (Option ℚ)
  | [] => Except.ok none
  | cap :: rest =>
    match pyFloat cap with
    | Except.ok v =>
        if rangeOk m v then Except.ok (some v) else firstValidE m rest
    | Except.error PyExc.valueError => firstValidE m rest
    | Except.error e => Except.error e

/-- The value a single pattern contributes (none on no valid match). -/
def tryPattern (m : Marker) (p : PatT) (cs : List Char) : Option ℚ :=
  match firstValidE m (finditer p cs) with
  | Except.ok r => r
  | Except.error _ => none

/-- The `for pattern in pattern_list` loop: the inner `break` leaves only
the match loop, so every pattern is still evaluated and a later pattern's
first valid match overwrites the recorded value. -/
def runMarkerE (m : Marker) : List PatT → List Char → Option ℚ → Except PyExc (Option ℚ)
  | [], _, acc => Except.ok acc
  | p :: ps, cs, acc =>
    match firstValidE m (finditer p cs) with
    | Except.error e => Except.error e
    | Except.ok none => runMarkerE m ps cs acc
    | Except.ok (some v) => runMarkerE m ps cs (some v)

/-- The recorded value for one marker (pure view of `runMarkerE`). -/
def runMarker (m : Marker) (ps : List PatT) (cs : List Char) : Option ℚ :=
  match runMarkerE m ps cs none with
  | Except.ok r => r
  | Except.error _ => none

/-- The `for marker, pattern_list in patterns.items()` loop: after one
marker's pattern list, `if marker in markers: break` leaves the whole
marker loop, so the returned dictionary holds at most the first marker
(in table order) for which some pattern produced an in-range value. -/
def extractLoopE : List Marker → List Char → Except PyExc (List (Marker × ℚ))
  | [], _ => Except.ok []
  | m :: rest, cs =>
    match runMarkerE m (patsOf m) cs none with
    | Except.error e => Except.error e
    | Except.ok (some v) => Except.ok [(m, v)]
    | Except.ok none => extractLoopE rest cs

/-- `report_data.lower()` (ASCII case folding). -/
def toLowerChars (s : String) : List Char :=
  s.data.map Char.toLower

/-- `extract_blood_markers` with exceptions left visible. -/
def extract_blood_markersE (s : String) : Except PyExc (List (Marker × ℚ)) :=
  if s = "" then Except.ok [] else extractLoopE markerOrder (toLowerChars s)

/-- `extract_blood_markers(report_data)`: the marker dictionary, as an
association list in insertion order. -/
def extract_blood_markers (s : String) : List (Marker × ℚ) :=
  match extract_blood_markersE s with
  | Except.ok r => r
  | Except.error _ => []

/-- `str.strip()` with no argument (ASCII whitespace). -/
def pyStrip (s : String) : String :=
  String.mk (((s.data.dropWhile isSpaceCh).reverse.dropWhile isSpaceCh).reverse)

/-- Dictionary lookup `markers[m]` / `m in markers` on the association list. -/
def lookupM : List (Marker × ℚ) → Marker → Option ℚ
  | [], _ => none
  | (m, v) :: rest, m0 => if m = m0 then some v else lookupM rest m0

/-- `marker.title()` for the marker names of the table. -/
def markerTitle : Marker → String
  | Marker.hemoglobin => "Hemoglobin"
  | Marker.cholesterol => "Cholesterol"
  | Marker.glucose => "Glucose"
  | Marker.protein => "Protein"
  | Marker.albumin => "Albumin"
  | Marker.creatinine => "Creatinine"
  | Marker.hdl => "Hdl"
  | Marker.ldl => "Ldl"
  | Marker.triglycerides => "Triglycerides"
  | Marker.bun => "Bun"
  | Marker.sodium => "Sodium"
  | Marker.potassium => "Potassium"

/-- Left-pad a digit string with zeros to `k` characters. -/
def padZeros (s : String) (k : Nat) : String :=
  String.mk (List.replicate (k - s.length) '0') ++ s

/-- Python's `repr`/f-string rendering of the (non-negative, terminating
decimal) float values produced by extraction: the shortest decimal form,
with at least one fractional digit (`220.0`, `10.5`). -/
def pyRepr (q : ℚ) : String :=
  match (List.range 31).find? (fun k => (q * (10 : ℚ) ^ k).den == 1) with
  | some k =>
      let n : Nat := (q * (10 : ℚ) ^ k).num.toNat
      if k = 0 then toString n ++ ".0"
      else toString (n / 10 ^ k) ++ "." ++ padZeros (toString (n % 10 ^ k)) k
  | none => toString q

/-- Round to the nearest integer, ties to even — the rounding of
Python's `format(x, '.0f')`. -/
def roundHalfEven (q : ℚ) : ℤ :=
  let f : ℤ := Rat.floor q
  let r : ℚ := q - (f : ℚ)
  if r < 1 / 2 then f
  else if 1 / 2 < r then f + 1
  else if f % 2 = 0 then f else f + 1

/-- `"{:.0f}".format(q)`. -/
def format0f (q : ℚ) : String := toString (roundHalfEven q)

/-- A run of `n` copies of character `c` (Python `"=" * n`). -/
def rep (c : Char) (n : Nat) : String := String.mk (List.replicate n c)

/-- The hemoglobin block of `analyze_nutrition` (lines 264-305). -/
def hemoSection (v : ℚ) : List String :=
  ["🩸 IRON STATUS ANALYSIS", rep '-' 40,
   "Your Hemoglobin Level: " ++ pyRepr v ++ " g/dL"]
  ++ (if v < 12 then
      ["⚠️  LOW HEMOGLOBIN DETECTED (" ++ pyRepr v ++ " g/dL)",
       "Your hemoglobin is below normal range (12.1-15.1 g/dL for women, 13.8-17.2 g/dL for men)",
       "",
       "🥩 IRON-RICH FOODS TO INCLUDE DAILY:",
       "• Red meat: 3-4 oz serving (provides ~2.5mg iron)",
       "• Chicken/Turkey: 4 oz serving (provides ~1.1mg iron)",
       "• Spinach: 1 cup cooked (provides ~6.4mg iron)",
       "• Lentils: 1 cup cooked (provides ~6.6mg iron)",
       "• Fortified cereals: 1 cup (provides ~4-18mg iron)",
       "\n🍊 ENHANCE IRON ABSORPTION WITH VITAMIN C:",
       "• Drink orange juice with iron-rich meals",
       "• Add bell peppers, strawberries, or tomatoes",
       "• Take iron supplements with vitamin C (consult doctor first)",
       "\n🚫 AVOID WITH IRON-RICH MEALS:",
       "• Coffee and tea (wait 1-2 hours after eating)",
       "• Calcium supplements",
       "• Dairy products during iron-rich meals"]
    else if v > 16 then
      ["⚠️  ELEVATED HEMOGLOBIN (" ++ pyRepr v ++ " g/dL)",
       "Your hemoglobin is above normal range",
       "• Increase daily water intake to 10-12 glasses",
       "• Avoid iron supplements unless prescribed",
       "• Focus on hydrating foods: watermelon, cucumber, soups",
       "• Consult your doctor about this elevated level"]
    else
      ["✅ NORMAL HEMOGLOBIN LEVEL (" ++ pyRepr v ++ " g/dL)",
       "Your iron status appears healthy",
       "• Continue current iron intake from balanced diet",
       "• Include variety of protein sources"])
  ++ [""]

/-- The cholesterol block of `analyze_nutrition` (lines 307-340). -/
def cholSection (v : ℚ) : List String :=
  ["❤️  CHOLESTEROL MANAGEMENT", rep '-' 35,
   "Your Total Cholesterol: " ++ pyRepr v ++ " mg/dL"]
  ++ (if v > 200 then
      ["⚠️  ELEVATED CHOLESTEROL (" ++ pyRepr v ++ " mg/dL)",
       "Your cholesterol is above desirable level (<200 mg/dL)",
       "",
       "🐟 HEART-HEALTHY FOODS TO EAT DAILY:",
       "• Fatty fish: Salmon, mackerel, sardines (2-3x/week, 4oz servings)",
       "• Oats: 1 cup cooked daily (provides 3g soluble fiber)",
       "• Beans: 1/2 cup daily (lentils, black beans, chickpeas)",
       "• Nuts: 1 oz almonds or walnuts daily",
       "• Olive oil: 2-3 tablespoons for cooking",
       "\n🚫 FOODS TO LIMIT OR AVOID:",
       "• Red meat: Limit to 2x/week, lean cuts only",
       "• Full-fat dairy: Switch to low-fat versions",
       "• Fried foods: Bake, grill, or steam instead",
       "• Processed foods: Avoid packaged snacks and fast food",
       "\n📉 TARGET: Reduce cholesterol by 10-15% in 3 months",
       "This could bring your level to approximately " ++ format0f (v * (85 / 100)) ++
         "-" ++ format0f (v * (9 / 10)) ++ " mg/dL"]
    else
      ["✅ GOOD CHOLESTEROL LEVEL (" ++ pyRepr v ++ " mg/dL)",
       "Your cholesterol is in the desirable range (<200 mg/dL)",
       "• Continue heart-healthy Mediterranean-style diet",
       "• Maintain current healthy fat intake"])
  ++ [""]

/-- The glucose block of `analyze_nutrition` (lines 342-381). -/
def glucoseSection (v : ℚ) : List String :=
  ["🍯 BLOOD SUGAR MANAGEMENT", rep '-' 30,
   "Your Glucose Level: " ++ pyRepr v ++ " mg/dL"]
  ++ (if v > 100 then
      ["⚠️  ELEVATED GLUCOSE (" ++ pyRepr v ++ " mg/dL)"]
      ++ (if v ≥ 126 then ["This indicates diabetes range (≥126 mg/dL)"]
          else if v ≥ 100 then ["This indicates prediabetes range (100-125 mg/dL)"]
          else [])
      ++ ["",
       "🌾 BLOOD SUGAR FRIENDLY FOODS:",
       "• Whole grains: Brown rice, quinoa, steel-cut oats",
       "• Legumes: Beans, lentils, chickpeas (1/2 cup per meal)",
       "• Non-starchy vegetables: Broccoli, spinach, peppers (unlimited)",
       "• Lean proteins: Chicken, fish, tofu (4-6 oz per meal)",
       "\n⏰ MEAL TIMING STRATEGY:",
       "• Eat every 3-4 hours to prevent blood sugar spikes",
       "• Include protein with every meal and snack",
       "• Avoid large portions of carbohydrates",
       "• Test blood sugar before and after meals if possible",
       "\n🚫 FOODS TO AVOID:",
       "• White bread, white rice, pastries",
       "• Sugary drinks: Soda, fruit juice, sports drinks",
       "• Candy, cookies, ice cream",
       "• Large portions of any carbohydrate"]
    else
      ["✅ NORMAL GLUCOSE LEVEL (" ++ pyRepr v ++ " mg/dL)",
       "Your blood sugar is in the healthy range (70-99 mg/dL)",
       "• Continue balanced carbohydrate intake",
       "• Maintain regular meal timing"])
  ++ [""]

/-- The generic-guidance block (lines 385-399), emitted when none of
hemoglobin, cholesterol, glucose was detected. -/
def generalSection : List String :=
  ["📋 GENERAL NUTRITION GUIDANCE", rep '-' 35,
   "Specific blood markers were not detected in the automated analysis.",
   "However, here are evidence-based nutrition recommendations:",
   "",
   "🥗 DAILY NUTRITION TARGETS:",
   "• Vegetables: 5-9 servings (1 serving = 1 cup raw or 1/2 cup cooked)",
   "• Fruits: 2-4 servings (1 serving = 1 medium fruit)",
   "• Whole grains: 6-8 servings (1 serving = 1 slice bread or 1/2 cup rice)",
   "• Lean protein: 5-6 oz total daily",
   "• Healthy fats: 2-3 tablespoons daily (olive oil, nuts)",
   "",
   "💧 HYDRATION:",
   "• Water: 8-10 glasses daily",
   "• Limit sugary beverages and alcohol"]

/-- The fixed closing block (lines 402-419), always appended. -/
def closingSection : List String :=
  ["",
   "📅 IMPLEMENTATION TIMELINE", rep '-' 30,
   "Week 1: Focus on increasing vegetables and water intake",
   "Week 2: Add heart-healthy fats and reduce processed foods",
   "Week 3-4: Establish consistent meal timing",
   "Month 2-3: Monitor progress with follow-up blood tests",
   "",
   "📊 MONITORING PROGRESS:",
   "• Keep a 3-day food diary",
   "• Track energy levels and symptoms",
   "• Schedule blood work in 3 months to reassess",
   "• Work with a registered dietitian for personalized guidance",
   "",
   "⚠️  IMPORTANT: Consult with your healthcare provider before making",
   "    significant dietary changes, especially if you have medical conditions."]

/-- `analysis_provided`: set when any of the three handled markers has a
section. -/
def analysisProvided (ms : List (Marker × ℚ)) : Bool :=
  (lookupM ms Marker.hemoglobin).isSome || (lookupM ms Marker.cholesterol).isSome
    || (lookupM ms Marker.glucose).isSome

/-- The `recommendations` list of `analyze_nutrition` (lines 247-419),
for a given marker dictionary; `now` is the formatted timestamp. -/
def analyzeNutritionLines (now : String) (ms : List (Marker × ℚ)) : List String :=
  ["🥗 NUTRITION ANALYSIS BASED ON YOUR BLOOD TEST RESULTS",
   rep '=' 65,
   "Analysis Date: " ++ now,
   "Blood Markers Found: " ++ toString ms.length]
  ++ (if ms.isEmpty then []
      else "Detected Values:" ::
        ms.map (fun p => "  • " ++ markerTitle p.1 ++ ": " ++ pyRepr p.2))
  ++ [""]
  ++ (match lookupM ms Marker.hemoglobin with
      | some v => hemoSection v
      | none => [])
  ++ (match lookupM ms Marker.cholesterol with
      | some v => cholSection v
      | none => [])
  ++ (match lookupM ms Marker.glucose with
      | some v => glucoseSection v
      | none => [])
  ++ (if analysisProvided ms then [] else generalSection)
  ++ closingSection

/-- `analyze_nutrition(blood_report_data)`.  The guarded body contains no
raising operation, so the surrounding `try/except` never fires. -/
def analyze_nutrition (now s : String) : String :=
  if s = "" ∨ pyStrip s = "" then
    "Error: No blood report data provided for nutrition analysis."
  else
    String.intercalate "\n" (analyzeNutritionLines now (extract_blood_markers s))

/-- The `risk_factors` list of `create_exercise_plan` (lines 456-469). -/
def riskFactors (ms : List (Marker × ℚ)) : List String :=
  (match lookupM ms Marker.cholesterol with
   | some v => if v > 240 then ["High cholesterol (" ++ pyRepr v ++ " mg/dL)"] else []
   | none => [])
  ++ (match lookupM ms Marker.glucose with
      | some v => if v > 126 then ["Elevated glucose (" ++ pyRepr v ++ " mg/dL)"] else []
      | none => [])
  ++ (match lookupM ms Marker.hemoglobin with
      | some v => if v < 12 then ["Low hemoglobin (" ++ pyRepr v ++ " g/dL)"] else []
      | none => [])

/-- The `special_considerations` list (lines 456-469). -/
def specialConsiderations (ms : List (Marker × ℚ)) : List String :=
  (match lookupM ms Marker.cholesterol with
   | some v => if v > 240 then ["Emphasize aerobic exercise for cholesterol management"] else []
   | none => [])
  ++ (match lookupM ms Marker.glucose with
      | some v => if v > 126 then ["Monitor blood sugar before and after exercise"] else []
      | none => [])
  ++ (match lookupM ms Marker.hemoglobin with
      | some v => if v < 12 then ["Start with low-intensity exercise due to potential anemia"] else []
      | none => [])

/-- The `exercise_plan` lines built before the intensity check
(lines 438-480). -/
def exercisePreLines (now : String) (ms : List (Marker × ℚ)) : List String :=
  ["💪 PERSONALIZED EXERCISE PLAN BASED ON YOUR BLOOD RESULTS",
   rep '=' 60,
   "Analysis Date: " ++ now,
   "Blood Markers Evaluated: " ++ toString ms.length]
  ++ (if ms.isEmpty then []
      else "Your Blood Values:" ::
        ms.map (fun p => "  • " ++ markerTitle p.1 ++ ": " ++ pyRepr p.2))
  ++ ["",
   "⚠️  MEDICAL CLEARANCE REQUIRED",
   "Obtain physician approval before starting any new exercise program",
   ""]
  ++ (if (riskFactors ms).isEmpty then []
      else ("🎯 HEALTH CONSIDERATIONS BASED ON YOUR RESULTS:" ::
            (riskFactors ms).map (fun f => "  ⚠️  " ++ f)) ++ [""])
  ++ ["🏃 CARDIOVASCULAR EXERCISE PROGRAM", rep '-' 45]

/-- `create_exercise_plan` up to its intensity selection.  At line 482
the source calls `any` with two boolean arguments —
`any(cond1, cond2)` — which raises
`TypeError: any() takes exactly one argument (2 given)` before any
intensity tier is chosen; the lines accumulated so far are discarded. -/
def create_exercise_planE (now s : String) : Except PyExc String :=
  if s = "" ∨ pyStrip s = "" then
    Except.ok "Error: No blood report data provided for exercise planning."
  else
    let ms := extract_blood_markers s
    let _plan := exercisePreLines now ms
    Except.error (PyExc.typeError "any() takes exactly one argument (2 given)")

/-- `create_exercise_plan(blood_report_data)`: the body's exception is
caught by `except Exception as e` and rendered as an error string. -/
def create_exercise_plan (now s : String) : String :=
  match create_exercise_planE now s with
  | Except.ok r => r
  | Except.error e => "Error creating exercise plan: " ++ pyExcStr e

/-- Boolean substring test (`needle` occurs contiguously in `hay`). -/
def startsWithL : List Char → List Char → Bool
  | [], _ => true
  | _ :: _, [] => false
  | n :: ns, c :: cs => n == c && startsWithL ns cs

/-- Substring occurrence for strings, on their character lists. -/
def containsSub (needle : List Char) : List Char → Bool
  | [] => needle.isEmpty
  | c :: cs => startsWithL needle (c :: cs) || containsSub needle cs

section RatReduction

/- The kernel evaluation of concrete extractions needs the arithmetic on
`ℚ` to unfold; the four operations below are `[irreducible]` upstream. -/
attribute [local semireducible] Rat.mul Rat.add Rat.sub Rat.inv

/-- Dictionary-overwrite combination: a later recorded value wins. -/
def orO (a b : Option ℚ) : Option ℚ :=
  match a with
  | some v => some v
  | none => b

lemma orO_none_right (a : Option ℚ) : orO a none = a := by
  cases a <;> rfl

lemma pyFloat_cases (cs : List Char) :
    pyFloat cs = Except.error PyExc.valueError ∨ ∃ v, pyFloat cs = Except.ok v := by
  unfold pyFloat
  cases parseDec cs
  · exact Or.inl rfl
  · exact Or.inr ⟨_, rfl⟩

lemma firstValidE_ok (m : Marker) (caps : List (List Char)) :
    ∃ o, firstValidE m caps = Except.ok o := by
  induction caps with
  | nil => exact ⟨none, rfl⟩
  | cons cap rest ih =>
      cases hp : parseDec cap with
      | none => simpa [firstValidE, pyFloat, hp] using ih
      | some v =>
          by_cases hr : rangeOk m v = true
          · exact ⟨some v, by simp [firstValidE, pyFloat, hp, hr]⟩
          · simpa [firstValidE, pyFloat, hp, hr] using ih

lemma firstValidE_range (m : Marker) (caps : List (List Char)) (v : ℚ)
    (h : firstValidE m caps = Except.ok (some v)) : rangeOk m v = true := by
  induction caps with
  | nil => simp [firstValidE] at h
  | cons cap rest ih =>
      cases hp : parseDec cap with
      | none =>
          rw [show firstValidE m (cap :: rest) = firstValidE m rest by
            simp [firstValidE, pyFloat, hp]] at h
          exact ih h
      | some w =>
          by_cases hr : rangeOk m w = true
          · rw [show firstValidE m (cap :: rest) = Except.ok (some w) by
              simp [firstValidE, pyFloat, hp, hr]] at h
            obtain rfl : w = v := by simpa using h
            exact hr
          · rw [show firstValidE m (cap :: rest) = firstValidE m rest by
              simp [firstValidE, pyFloat, hp, hr]] at h
            exact ih h

lemma tryPattern_spec (m : Marker) (p : PatT) (cs : List Char) :
    firstValidE m (finditer p cs) = Except.ok (tryPattern m p cs) := by
  obtain ⟨o, ho⟩ := firstValidE_ok m (finditer p cs)
  unfold tryPattern
  rw [ho]

lemma tryPattern_some (m : Marker) (p : PatT) (cs : List Char) (v : ℚ)
    (h : tryPattern m p cs = some v) :
    firstValidE m (finditer p cs) = Except.ok (some v) := by
  have hs := tryPattern_spec m p cs
  rw [h] at hs
  exact hs

lemma findSome?_append_orO {α : Type} (f : α → Option ℚ) (l1 l2 : List α) :
    List.findSome? f (l1 ++ l2) = orO (List.findSome? f l1) (List.findSome? f l2) := by
  induction l1 with
  | nil => simp [orO]
  | cons a l ih =>
      rw [List.cons_append, List.findSome?_cons, List.findSome?_cons]
      cases h : f a <;> simp [orO, ih]

lemma runMarkerE_eq (m : Marker) (cs : List Char) :
    ∀ (pats : List PatT) (acc : Option ℚ),
      runMarkerE m pats cs acc =
        Except.ok (orO (List.findSome? (fun p => tryPattern m p cs) pats.reverse) acc) := by
  intro pats
  induction pats with
  | nil => intro acc; simp [runMarkerE, orO]
  | cons p ps ih =>
      intro acc
      have hs := tryPattern_spec m p cs
      unfold runMarkerE
      rw [hs]
      cases ht : tryPattern m p cs with
      | none =>
          show runMarkerE m ps cs acc = _
          rw [ih, List.reverse_cons, findSome?_append_orO]
          have h1 : List.findSome? (fun p => tryPattern m p cs) [p] = none := by
            simp [List.findSome?_cons, ht]
          rw [h1, orO_none_right]
      | some v =>
          show runMarkerE m ps cs (some v) = _
          rw [ih, List.reverse_cons, findSome?_append_orO]
          have h1 : List.findSome? (fun p => tryPattern m p cs) [p] = some v := by
            simp [List.findSome?_cons, ht]
          rw [h1]
          congr 1
          cases List.findSome? (fun p => tryPattern m p cs) ps.reverse <;> rfl

lemma runMarker_eq (m : Marker) (pats : List PatT) (cs : List Char) :
    runMarker m pats cs = List.findSome? (fun p => tryPattern m p cs) pats.reverse := by
  unfold runMarker
  rw [runMarkerE_eq m cs pats none, orO_none_right]

lemma runMarkerE_run (m : Marker) (pats : List PatT) (cs : List Char) :
    runMarkerE m pats cs none = Except.ok (runMarker m pats cs) := by
  rw [runMarkerE_eq m cs pats none, runMarker_eq, orO_none_right]

lemma runMarker_range (m : Marker) (pats : List PatT) (cs : List Char) (v : ℚ)
    (h : runMarker m pats cs = some v) : rangeOk m v = true := by
  rw [runMarker_eq] at h
  obtain ⟨p, _, hp⟩ := List.exists_of_findSome?_eq_some h
  exact firstValidE_range m (finditer p cs) v (tryPattern_some m p cs v hp)

lemma rangeOk_bounds (m : Marker) (v : ℚ) (h : rangeOk m v = true) :
    loB m ≤ v ∧ v ≤ hiB m := by
  unfold rangeOk at h
  rw [Bool.and_eq_true] at h
  exact ⟨of_decide_eq_true h.1, of_decide_eq_true h.2⟩

lemma extractLoopE_cons (m0 : Marker) (rest : List Marker) (cs : List Char) :
    extractLoopE (m0 :: rest) cs =
      match runMarkerE m0 (patsOf m0) cs none with
      | Except.error e => Except.error e
      | Except.ok (some v) => Except.ok [(m0, v)]
      | Except.ok none => extractLoopE rest cs := rfl

lemma extractLoopE_cases (order : List Marker) (cs : List Char) :
    (extractLoopE order cs = Except.ok [] ∧
      ∀ m ∈ order, runMarker m (patsOf m) cs = none) ∨
    (∃ m v pre post, order = pre ++ m :: post ∧
      extractLoopE order cs = Except.ok [(m, v)] ∧
      runMarker m (patsOf m) cs = some v ∧
      ∀ m' ∈ pre, runMarker m' (patsOf m') cs = none) := by
  induction order with
  | nil =>
      left
      exact ⟨rfl, by simp⟩
  | cons m0 rest ih =>
      have hrun := runMarkerE_run m0 (patsOf m0) cs
      cases hr : runMarker m0 (patsOf m0) cs with
      | some v =>
          right
          refine ⟨m0, v, [], rest, by simp, ?_, hr, by simp⟩
          simp only [extractLoopE_cons, hrun, hr]
      | none =>
          have hstep : extractLoopE (m0 :: rest) cs = extractLoopE rest cs := by
            simp only [extractLoopE_cons, hrun, hr]
          rcases ih with ⟨h1, h2⟩ | ⟨m, v, pre, post, hor, h1, hrm, hpre⟩
          · left
            refine ⟨by rw [hstep]; exact h1, ?_⟩
            intro m hm
            rcases List.mem_cons.mp hm with rfl | hm'
            · exact hr
            · exact h2 m hm'
          · right
            refine ⟨m, v, m0 :: pre, post, by rw [hor]; rfl, by rw [hstep]; exact h1, hrm, ?_⟩
            intro m' hm'
            rcases List.mem_cons.mp hm' with rfl | hm''
            · exact hr
            · exact hpre m' hm''

lemma extractE_exists (s : String) :
    ∃ r, extract_blood_markersE s = Except.ok r := by
  unfold extract_blood_markersE
  split
  · exact ⟨[], rfl⟩
  · rcases extractLoopE_cases markerOrder (toLowerChars s) with ⟨h, _⟩ | ⟨m, v, _, _, _, h, _, _⟩
    · exact ⟨[], h⟩
    · exact ⟨[(m, v)], h⟩

lemma extractE_ok (s : String) :
    extract_blood_markersE s = Except.ok (extract_blood_markers s) := by
  obtain ⟨r, hr⟩ := extractE_exists s
  unfold extract_blood_markers
  rw [hr]

lemma extract_loop_form (s : String) (hs : ¬ s = "") :
    extractLoopE markerOrder (toLowerChars s) = Except.ok (extract_blood_markers s) := by
  have h := extractE_ok s
  unfold extract_blood_markersE at h
  rw [if_neg hs] at h
  exact h

lemma extract_empty : extract_blood_markers "" = [] := rfl

lemma extract_shape (s : String) :
    extract_blood_markers s = [] ∨ ∃ m v, extract_blood_markers s = [(m, v)] := by
  by_cases hs : s = ""
  · subst hs
    exact Or.inl extract_empty
  · have h := extract_loop_form s hs
    rcases extractLoopE_cases markerOrder (toLowerChars s) with ⟨h1, _⟩ | ⟨m, v, _, _, _, h1, _, _⟩
    · rw [h1] at h
      exact Or.inl (Except.ok.inj h).symm
    · rw [h1] at h
      exact Or.inr ⟨m, v, (Except.ok.inj h).symm⟩

lemma extract_mem (s : String) (m : Marker) (v : ℚ)
    (h : (m, v) ∈ extract_blood_markers s) :
    extract_blood_markers s = [(m, v)] ∧
    runMarker m (patsOf m) (toLowerChars s) = some v ∧
    ∃ pre post, markerOrder = pre ++ m :: post ∧
      ∀ m' ∈ pre, runMarker m' (patsOf m') (toLowerChars s) = none := by
  by_cases hs : s = ""
  · rw [hs, extract_empty] at h
    simp at h
  · have hf := extract_loop_form s hs
    rcases extractLoopE_cases markerOrder (toLowerChars s) with ⟨h1, _⟩ | ⟨m1, v1, pre, post, hor, h1, hrm, hpre⟩
    · rw [h1] at hf
      rw [← Except.ok.inj hf] at h
      simp at h
    · rw [h1] at hf
      have hx : extract_blood_markers s = [(m1, v1)] := (Except.ok.inj hf).symm
      rw [hx] at h
      simp at h
      obtain ⟨rfl, rfl⟩ := h
      exact ⟨hx, hrm, pre, post, hor, hpre⟩

lemma extract_length (s : String) : (extract_blood_markers s).length ≤ 1 := by
  rcases extract_shape s with h | ⟨m, v, h⟩ <;> rw [h] <;> simp

lemma lookup_extract (s : String) (m : Marker) (v : ℚ)
    (h : lookupM (extract_blood_markers s) m = some v) :
    extract_blood_markers s = [(m, v)] := by
  rcases extract_shape s with hx | ⟨m1, v1, hx⟩
  · rw [hx] at h
    simp [lookupM] at h
  · rw [hx] at h
    unfold lookupM at h
    by_cases hm : m1 = m
    · subst hm
      rw [if_pos rfl] at h
      rw [hx]
      obtain rfl : v1 = v := by simpa [lookupM] using h
      rfl
    · rw [if_neg hm] at h
      simp [lookupM] at h

/-- Claim C1 (evidence of the code bug): on the three-fragment scenario
text the extractor records only hemoglobin.  The `break` guarded by
`if marker in markers` (line 234 of `tools.py`) leaves the whole marker
loop after the first recorded marker, so cholesterol = 220 and
glucose = 135, though present and in range, are never recorded —
extraction does not move on to the next marker as the spec states. -/
theorem c1_only_first_marker_recorded :
    extract_blood_markers "Hemoglobin: 10.5 g/dL Total Cholesterol 220 mg/dL Glucose 135 mg/dL"
      = [(Marker.hemoglobin, 21 / 2)] ∧
    (Marker.cholesterol, (220 : ℚ)) ∉
      extract_blood_markers "Hemoglobin: 10.5 g/dL Total Cholesterol 220 mg/dL Glucose 135 mg/dL" ∧
    (Marker.glucose, (135 : ℚ)) ∉
      extract_blood_markers "Hemoglobin: 10.5 g/dL Total Cholesterol 220 mg/dL Glucose 135 mg/dL" := by
  have h : extract_blood_markers
      "Hemoglobin: 10.5 g/dL Total Cholesterol 220 mg/dL Glucose 135 mg/dL"
      = [(Marker.hemoglobin, 21 / 2)] := by decide
  refine ⟨h, ?_, ?_⟩ <;> rw [h] <;> decide

/-- Counterexample to claim C4 as stated: in
`"hgb: 8 g/dl hemoglobin 7"` the higher-priority pattern
`hgb[:\s]*(\d+\.?\d*)\s*g/dl` yields the in-range value 8, yet the
recorded value is 7, produced by the later, looser pattern
`hemoglobin[:\s]*(\d+\.?\d*)` — the first valid hit does not win. -/
theorem c4_counterexample :
    extract_blood_markers "hgb: 8 g/dl hemoglobin 7" = [(Marker.hemoglobin, 7)] ∧
    ¬ extract_blood_markers "hgb: 8 g/dl hemoglobin 7" = [(Marker.hemoglobin, 8)] := by
  have h : extract_blood_markers "hgb: 8 g/dl hemoglobin 7" = [(Marker.hemoglobin, 7)] := by
    decide
  refine ⟨h, ?_⟩
  rw [h]
  decide

/-- Claim C4 as amended: the inner `break` leaves only the match loop,
so every pattern of a marker is evaluated and a later pattern's value
overwrites an earlier one: the recorded value is that of the last
pattern in configured order with a valid hit
(`findSome?` over the reversed pattern list), while within a single
pattern the first parseable, in-range match is the one recorded. -/
theorem c4_last_pattern_wins :
    (∀ (m : Marker) (pats : List PatT) (cs : List Char),
       runMarker m pats cs = List.findSome? (fun p => tryPattern m p cs) pats.reverse) ∧
    (∀ (m : Marker) (cap : List Char) (caps : List (List Char)) (v : ℚ),
       parseDec cap = some v → rangeOk m v = true →
       firstValidE m (cap :: caps) = Except.ok (some v)) := by
  constructor
  · exact fun m pats cs => runMarker_eq m pats cs
  · intro m cap caps v hp hr
    simp [firstValidE, pyFloat, hp, hr]

/-- Witness for the amended claim C4 at a concrete capture. -/
theorem c4_last_pattern_wins_witness :
    parseDec ['1', '0', '.', '5'] = some (21 / 2) ∧
    rangeOk Marker.hemoglobin (21 / 2) = true ∧
    firstValidE Marker.hemoglobin [['1', '0', '.', '5']] = Except.ok (some (21 / 2)) :=
  ⟨by decide, by decide,
   c4_last_pattern_wins.2 Marker.hemoglobin ['1', '0', '.', '5'] [] (21 / 2)
     (by decide) (by decide)⟩

/-- Claim C5: every recorded value lies inside the marker's configured
inclusive plausibility range, and in particular never equals the lower
bound minus 0.01 or the upper bound plus 0.01. -/
theorem c5_range_invariant (s : String) (m : Marker) (v : ℚ)
    (h : (m, v) ∈ extract_blood_markers s) :
    (loB m ≤ v ∧ v ≤ hiB m) ∧ v ≠ loB m - 1 / 100 ∧ v ≠ hiB m + 1 / 100 := by
  obtain ⟨-, hrm, -⟩ := extract_mem s m v h
  have hb := rangeOk_bounds m v (runMarker_range m (patsOf m) (toLowerChars s) v hrm)
  refine ⟨hb, ?_, ?_⟩
  · intro he
    rw [he] at hb
    have h1 := hb.1
    linarith
  · intro he
    rw [he] at hb
    have h2 := hb.2
    linarith

/-- Witness for claim C5 at a concrete extraction. -/
theorem c5_range_invariant_witness :
    (Marker.hemoglobin, (21 / 2 : ℚ)) ∈ extract_blood_markers "hemoglobin: 10.5 g/dl" ∧
    ((loB Marker.hemoglobin ≤ 21 / 2 ∧ (21 / 2 : ℚ) ≤ hiB Marker.hemoglobin) ∧
      (21 / 2 : ℚ) ≠ loB Marker.hemoglobin - 1 / 100 ∧
      (21 / 2 : ℚ) ≠ hiB Marker.hemoglobin + 1 / 100) :=
  ⟨by decide,
   c5_range_invariant "hemoglobin: 10.5 g/dl" Marker.hemoglobin (21 / 2) (by decide)⟩

/-- Claim C6 (implicit): the returned dictionary has at most one entry,
namely the first marker in table order for which some pattern yields an
in-range value; all markers before it in the order yield none, and the
iteration stops at the recorded one. -/
theorem c6_at_most_one_marker (s : String) :
    (extract_blood_markers s).length ≤ 1 ∧
    ∀ m v, (m, v) ∈ extract_blood_markers s →
      extract_blood_markers s = [(m, v)] ∧
      runMarker m (patsOf m) (toLowerChars s) = some v ∧
      ∃ pre post, markerOrder = pre ++ m :: post ∧
        ∀ m' ∈ pre, runMarker m' (patsOf m') (toLowerChars s) = none := by
  refine ⟨extract_length s, ?_⟩
  intro m v h
  exact extract_mem s m v h

/-- Witness for claim C6 at a concrete extraction. -/
theorem c6_at_most_one_marker_witness :
    (Marker.glucose, (135 : ℚ)) ∈ extract_blood_markers "glucose 135 mg/dl" ∧
    (extract_blood_markers "glucose 135 mg/dl" = [(Marker.glucose, 135)] ∧
     runMarker Marker.glucose (patsOf Marker.glucose) (toLowerChars "glucose 135 mg/dl")
       = some 135 ∧
     ∃ pre post, markerOrder = pre ++ Marker.glucose :: post ∧
       ∀ m' ∈ pre, runMarker m' (patsOf m') (toLowerChars "glucose 135 mg/dl") = none) :=
  ⟨by decide, (c6_at_most_one_marker "glucose 135 mg/dl").2 Marker.glucose 135 (by decide)⟩

/-- Claim C7: extraction never lets an exception reach its caller — the
exception-transparent extractor always returns `ok`, the empty input
yields the empty dictionary, and a capture that fails to parse is
silently skipped by the `except ValueError: continue` handler. -/
theorem c7_no_exception_to_caller :
    (∀ s : String, extract_blood_markersE s = Except.ok (extract_blood_markers s)) ∧
    extract_blood_markers "" = [] ∧
    (∀ (m : Marker) (cap : List Char) (caps : List (List Char)),
      parseDec cap = none → firstValidE m (cap :: caps) = firstValidE m caps) := by
  refine ⟨extractE_ok, extract_empty, ?_⟩
  intro m cap caps hp
  simp [firstValidE, pyFloat, hp]

/-- Witness for claim C7 at a concrete unparsable capture. -/
theorem c7_no_exception_to_caller_witness :
    parseDec ['x'] = none ∧
    firstValidE Marker.hemoglobin [['x']] = firstValidE Marker.hemoglobin [] :=
  ⟨by decide, c7_no_exception_to_caller.2.2 Marker.hemoglobin ['x'] [] (by decide)⟩

/-- Claim C10 (evidence of the code bug): the fallback pattern
`hemoglobin[:\s]*(\d+\.?\d*)` (line 128) has no word-boundary anchor, so
on `"methemoglobin 10.5"`, where the marker name occurs only inside a
longer word, it still fires and records 10.5 for hemoglobin. -/
theorem c10_fallback_fires_inside_word :
    extract_blood_markers "methemoglobin 10.5" = [(Marker.hemoglobin, 21 / 2)] := by
  decide

/-- Claim C2 (evidence of the code bug): for every input whose stripped
form is non-empty, `create_exercise_plan` crashes at the two-argument
`any(...)` call (line 482), the `TypeError` is caught by the outer
handler, and the returned string is the error message — it contains none
of the fixed content (medical clearance, activity menu, strength
routine, 12-week progression, stop-exercise warning list). -/
theorem c2_fixed_content_never_emitted (now s : String) (h : pyStrip s ≠ "") :
    create_exercise_plan now s =
      "Error creating exercise plan: any() takes exactly one argument (2 given)" ∧
    containsSub ("⚠️  MEDICAL CLEARANCE REQUIRED").data
      ("Error creating exercise plan: any() takes exactly one argument (2 given)").data = false ∧
    containsSub ("🏃‍♀️ RECOMMENDED ACTIVITIES:").data
      ("Error creating exercise plan: any() takes exactly one argument (2 given)").data = false ∧
    containsSub ("🏋️ BEGINNER STRENGTH ROUTINE:").data
      ("Error creating exercise plan: any() takes exactly one argument (2 given)").data = false ∧
    containsSub ("📈 12-WEEK PROGRESSION PLAN:").data
      ("Error creating exercise plan: any() takes exactly one argument (2 given)").data = false ∧
    containsSub ("🚨 STOP EXERCISE IMMEDIATELY IF YOU EXPERIENCE:").data
      ("Error creating exercise plan: any() takes exactly one argument (2 given)").data = false := by
  have hc : ¬ (s = "" ∨ pyStrip s = "") := by
    rintro (h1 | h2)
    · exact h (by rw [h1]; rfl)
    · exact h h2
  have hE : create_exercise_planE now s =
      Except.error (PyExc.typeError "any() takes exactly one argument (2 given)") := by
    unfold create_exercise_planE
    rw [if_neg hc]
  refine ⟨?_, by decide, by decide, by decide, by decide, by decide⟩
  unfold create_exercise_plan
  rw [hE]
  decide

/-- Witness for claim C2 at a concrete non-blank input. -/
theorem c2_fixed_content_never_emitted_witness :
    pyStrip "Glucose 135 mg/dL" ≠ "" ∧
    create_exercise_plan "2024-01-01 00:00:00" "Glucose 135 mg/dL" =
      "Error creating exercise plan: any() takes exactly one argument (2 given)" :=
  ⟨by decide,
   (c2_fixed_content_never_emitted "2024-01-01 00:00:00" "Glucose 135 mg/dL" (by decide)).1⟩

/-- Claim C3 (evidence of the code bug): for the cholesterol-250 input
the intensity check itself raises (`any` with two arguments), so no
intensity tier and no health-considerations section is ever emitted —
the whole output is the caught-exception message — even though the
extractor does produce cholesterol = 250. -/
theorem c3_intensity_never_selected :
    create_exercise_plan "2024-01-01 00:00:00" "Total Cholesterol 250 mg/dL" =
      "Error creating exercise plan: any() takes exactly one argument (2 given)" ∧
    extract_blood_markers "Total Cholesterol 250 mg/dL" = [(Marker.cholesterol, 250)] := by
  exact ⟨by decide, by decide⟩

/-- Claim C8: an empty or whitespace-only input makes both advisors
return their explicit, mutually distinguishable error strings. -/
theorem c8_blank_input_error (now s : String) (h : pyStrip s = "") :
    analyze_nutrition now s = "Error: No blood report data provided for nutrition analysis." ∧
    create_exercise_plan now s = "Error: No blood report data provided for exercise planning." ∧
    ("Error: No blood report data provided for nutrition analysis." : String) ≠
      "Error: No blood report data provided for exercise planning." := by
  have hc : s = "" ∨ pyStrip s = "" := Or.inr h
  refine ⟨?_, ?_, by decide⟩
  · unfold analyze_nutrition
    rw [if_pos hc]
  · have hE : create_exercise_planE now s =
        Except.ok "Error: No blood report data provided for exercise planning." := by
      unfold create_exercise_planE
      rw [if_pos hc]
    unfold create_exercise_plan
    rw [hE]

/-- Witness for claim C8 at a whitespace-only input. -/
theorem c8_blank_input_error_witness :
    pyStrip " \t " = "" ∧
    analyze_nutrition "2024-01-01 00:00:00" " \t " =
      "Error: No blood report data provided for nutrition analysis." ∧
    create_exercise_plan "2024-01-01 00:00:00" " \t " =
      "Error: No blood report data provided for exercise planning." := by
  have h := c8_blank_input_error "2024-01-01 00:00:00" " \t " (by decide)
  exact ⟨by decide, h.1, h.2.1⟩

/-- Claim C9: when cholesterol is among the extracted markers, a value
above 200 produces the elevated tier with the heart-healthy food list,
the foods-to-limit list and the 85-90 percent numeric target range
(220 gives 187-198); otherwise the good-tier maintenance line appears.
For a non-blank input the advisor's output is exactly the joined
recommendation lines. -/
theorem c9_cholesterol_two_way (now s : String) (v : ℚ)
    (h : lookupM (extract_blood_markers s) Marker.cholesterol = some v) :
    ((v > 200 →
        "🐟 HEART-HEALTHY FOODS TO EAT DAILY:" ∈
          analyzeNutritionLines now (extract_blood_markers s) ∧
        "\n🚫 FOODS TO LIMIT OR AVOID:" ∈
          analyzeNutritionLines now (extract_blood_markers s) ∧
        ("This could bring your level to approximately " ++ format0f (v * (85 / 100)) ++ "-" ++
          format0f (v * (9 / 10)) ++ " mg/dL") ∈
          analyzeNutritionLines now (extract_blood_markers s)) ∧
     (¬ v > 200 →
        ("✅ GOOD CHOLESTEROL LEVEL (" ++ pyRepr v ++ " mg/dL)") ∈
          analyzeNutritionLines now (extract_blood_markers s))) ∧
    (pyStrip s ≠ "" →
      analyze_nutrition now s =
        String.intercalate "\n" (analyzeNutritionLines now (extract_blood_markers s))) ∧
    format0f ((220 : ℚ) * (85 / 100)) = "187" ∧ format0f ((220 : ℚ) * (9 / 10)) = "198" := by
  have hx := lookup_extract s Marker.cholesterol v h
  rw [hx]
  refine ⟨⟨?_, ?_⟩, ?_, by decide, by decide⟩
  · intro hv
    refine ⟨?_, ?_, ?_⟩ <;>
      simp [analyzeNutritionLines, lookupM, analysisProvided, cholSection, hv]
  · intro hv
    simp [analyzeNutritionLines, lookupM, analysisProvided, cholSection, hv]
  · intro hns
    have hc : ¬ (s = "" ∨ pyStrip s = "") := by
      rintro (h1 | h2)
      · exact hns (by rw [h1]; rfl)
      · exact hns h2
    unfold analyze_nutrition
    rw [if_neg hc, hx]

/-- Witness for claim C9 at cholesterol = 220. -/
theorem c9_cholesterol_two_way_witness :
    lookupM (extract_blood_markers "total cholesterol 220 mg/dl") Marker.cholesterol
      = some 220 ∧
    (220 : ℚ) > 200 ∧
    pyStrip "total cholesterol 220 mg/dl" ≠ "" ∧
    ("This could bring your level to approximately " ++ format0f ((220 : ℚ) * (85 / 100)) ++ "-"
      ++ format0f ((220 : ℚ) * (9 / 10)) ++ " mg/dL") ∈
      analyzeNutritionLines "2024-01-01 00:00:00"
        (extract_blood_markers "total cholesterol 220 mg/dl") ∧
    analyze_nutrition "2024-01-01 00:00:00" "total cholesterol 220 mg/dl" =
      String.intercalate "\n"
        (analyzeNutritionLines "2024-01-01 00:00:00"
          (extract_blood_markers "total cholesterol 220 mg/dl")) := by
  have h := c9_cholesterol_two_way "2024-01-01 00:00:00" "total cholesterol 220 mg/dl" 220
    (by decide)
  exact ⟨by decide, by decide, by decide, (h.1.1 (by decide)).2.2, h.2.1 (by decide)⟩

end RatReduction
